import Mathlib

/-!
Shallow embedding of the drone-kaniko registry-bootstrap plugins
(cmd/kaniko-ecr and cmd/kaniko-gcr) in Lean 4.

External effects (environment mutation, file writes, AWS API calls, the
delegated build executor) are modelled by oracle functions supplied as
parameters together with an explicit effect trace returned alongside the
result, so that frame and sequencing properties can be stated.
-/

namespace DroneKaniko

/-! ## Constants from cmd/kaniko-ecr/main.go and cmd/kaniko-gcr/main.go -/

def accessKeyEnv : String := "AWS_ACCESS_KEY_ID"

def secretKeyEnv : String := "AWS_SECRET_ACCESS_KEY"

def dockerConfigPath : String := "/kaniko/.docker/config.json"

def ecrPublicDomain : String := "public.ecr.aws"

def gcrKeyPath : String := "/kaniko/config.json"

def gcrEnvVariable : String := "GOOGLE_APPLICATION_CREDENTIALS"

/-! ## Error taxonomy (spec section 7) -/

inductive PluginError where
  | configError (msg : String)
  | envError (msg : String)
  | registryError (msg : String)
  | fileError (msg : String)
  | delegateError
  deriving DecidableEq

/-- Exit code of the plugin process: `app.Run` returning an error triggers
`logrus.Fatal`, which exits non-zero. -/
def exitCode (r : Except PluginError Unit) : Nat :=
  match r with
  | .ok _ => 0
  | .error _ => 1

/-! ## AWS backend model

`AwsErr` models the outcome of an AWS SDK call: `api code` is an error whose
chain carries a `smithy.APIError` with the given error code (so `errors.As`
succeeds on it), `nonApi` is an error carrying no API error (e.g. a transport
failure, where `errors.As` fails). -/

inductive AwsErr where
  | api (code : String)
  | nonApi
  deriving DecidableEq

/-- The two API families: `ecrpublic` (public) and `ecr` (private). -/
inductive Backend where
  | publicEcr
  | privateEcr
  deriving DecidableEq

/-- A backend API call made by the plugin, with the backend it was routed to
and the arguments forwarded. -/
inductive ApiCall where
  | createRepo (b : Backend) (region repo : String)
  | putLifecyclePolicy (b : Backend) (region repo text : String)
  | setRepositoryPolicy (b : Backend) (region repo text : String)
  deriving DecidableEq

/-! ## Docker credential config

Modelled from the spec: the `docker` package (pkg/docker) is not part of the
bootstrap sources; per spec section 3, `CredentialConfig` is a mapping from
registry host to either a static username/password descriptor (`auths`) or a
named credential-helper binding (`credHelpers`), with at most one descriptor
per host and later writes overwriting earlier ones for the same host. -/

structure DockerConfig where
  auths : List (String × String × String)
  credHelpers : List (String × String)
  deriving DecidableEq

/-- Association-list update with overwrite semantics (later writes overwrite
earlier ones for the same key). -/
def setAssoc {α : Type} (m : List (String × α)) (k : String) (v : α) :
    List (String × α) :=
  match m with
  | [] => [(k, v)]
  | (k', v') :: rest => if k' = k then (k, v) :: rest else (k', v') :: setAssoc rest k v

def lookupAssoc {α : Type} (m : List (String × α)) (k : String) : Option α :=
  match m with
  | [] => none
  | (k', v) :: rest => if k' = k then some v else lookupAssoc rest k

/-- Modelled from the spec: `docker.NewConfig` builds a fresh, empty config. -/
def DockerConfig.new : DockerConfig := ⟨[], []⟩

/-- Modelled from the spec: `docker.Config.SetAuth` binds a username/password
descriptor to a registry host. -/
def DockerConfig.setAuth (c : DockerConfig) (host user pass : String) : DockerConfig :=
  { c with auths := setAssoc c.auths host (user, pass) }

/-- Modelled from the spec: `docker.Config.SetCredHelper` binds a named
credential helper to a registry host. -/
def DockerConfig.setCredHelper (c : DockerConfig) (host helper : String) : DockerConfig :=
  { c with credHelpers := setAssoc c.credHelpers host helper }

/-- Modelled from the spec: `docker.RegistryV1`, the default/legacy registry
entry a supplied username is bound to. -/
def RegistryV1 : String := "https://index.docker.io/v1/"

/-- Model of `json.Marshal` on a `DockerConfig`: an injective textual encoding
standing in for the JSON document persisted at `dockerConfigPath`. -/
def encodeConfig (c : DockerConfig) : String :=
  "auths:[" ++ String.intercalate ","
      (c.auths.map (fun a => a.1 ++ "=" ++ a.2.1 ++ ":" ++ a.2.2)) ++
    "];credHelpers:[" ++ String.intercalate ","
      (c.credHelpers.map (fun p => p.1 ++ "=" ++ p.2)) ++ "]"

/-! ## Observable effects of a plugin run -/

inductive Effect where
  | setEnv (key value : String)
  | writeFile (path content : String)
  | apiCall (c : ApiCall)
  | execBuild
  deriving DecidableEq

def Effect.isSetEnv : Effect → Bool
  | .setEnv _ _ => true
  | _ => false

def Effect.isApiCall : Effect → Bool
  | .apiCall _ => true
  | _ => false

/-! ## cmd/kaniko-ecr: isRegistryPublic -/

/-- `isRegistryPublic` from cmd/kaniko-ecr/main.go:
`strings.HasPrefix(registry, ecrPublicDomain)`, modelled as character-list
prefix. -/
def isRegistryPublic (registry : String) : Bool :=
  ecrPublicDomain.data.isPrefixOf registry.data

/-- The backend family an ECR registry host is routed to. -/
def regBackend (registry : String) : Backend :=
  if isRegistryPublic registry then Backend.publicEcr else Backend.privateEcr

/-! ## cmd/kaniko-ecr: createDockerConfig

`setenvOk key value` models the outcome of `os.Setenv key value`. The effect
trace records the environment variables successfully exported. -/

def createDockerConfig (setenvOk : String → String → Bool)
    (dockerUsername dockerPassword accessKey secretKey registry : String)
    (noPush : Bool) : Except PluginError DockerConfig × List Effect :=
  let dockerConfig := DockerConfig.new
  let dockerConfig :=
    if dockerUsername ≠ "" then dockerConfig.setAuth RegistryV1 dockerUsername dockerPassword
    else dockerConfig
  -- only setup auth when pushing or credentials are defined
  if !noPush || accessKey ≠ "" then
    if registry = "" then
      (.error (.configError "registry must be specified"), [])
    else
      -- If IAM role is used, access key & secret key are not required
      if accessKey ≠ "" && secretKey ≠ "" then
        if setenvOk accessKeyEnv accessKey = false then
          (.error (.envError accessKeyEnv), [])
        else if setenvOk secretKeyEnv secretKey = false then
          (.error (.envError secretKeyEnv), [Effect.setEnv accessKeyEnv accessKey])
        else
          (.ok ((dockerConfig.setCredHelper ecrPublicDomain "ecr-login").setCredHelper
              registry "ecr-login"),
           [Effect.setEnv accessKeyEnv accessKey, Effect.setEnv secretKeyEnv secretKey])
      else
        (.ok ((dockerConfig.setCredHelper ecrPublicDomain "ecr-login").setCredHelper
            registry "ecr-login"), [])
  else
    (.ok dockerConfig, [])

/-! ## cmd/kaniko-ecr: createRepository

`loadConfigErr region` models `config.LoadDefaultConfig` for that region;
`createRepoRes b region repo` models the error (if any) returned by the
backend `CreateRepository` call on family `b`. -/

def createRepository (loadConfigErr : String → Option AwsErr)
    (createRepoRes : Backend → String → String → Option AwsErr)
    (region repo registry : String) : Except PluginError Unit × List ApiCall :=
  if registry = "" then
    (.error (.configError "registry must be specified"), [])
  else if repo = "" then
    (.error (.configError "repo must be specified"), [])
  else
    match loadConfigErr region with
    | some _ => (.error (.registryError "failed to load aws config"), [])
    | none =>
      -- errors.As(createErr, &apiError) && apiError.ErrorCode() != "RepositoryAlreadyExistsException"
      match createRepoRes (regBackend registry) region repo with
      | some (AwsErr.api code) =>
        if code ≠ "RepositoryAlreadyExistsException" then
          (.error (.registryError "failed to create repository"),
           [ApiCall.createRepo (regBackend registry) region repo])
        else
          (.ok (), [ApiCall.createRepo (regBackend registry) region repo])
      | _ => (.ok (), [ApiCall.createRepo (regBackend registry) region repo])

/-! ## Honest-backend state model for idempotence

`ecrBackendCreate` is the server-side behaviour of `CreateRepository`:
if the repository already exists it fails with the
`RepositoryAlreadyExistsException` API error, otherwise it creates it. -/

def ecrBackendCreate (existing : List (Backend × String)) (b : Backend) (repo : String) :
    Option AwsErr × List (Backend × String) :=
  if (b, repo) ∈ existing then
    (some (AwsErr.api "RepositoryAlreadyExistsException"), existing)
  else
    (none, (b, repo) :: existing)

/-- `createRepository` run against the honest backend, threading the set of
existing repositories. The backend state changes only when a create call is
actually issued. -/
def createRepositoryS (existing : List (Backend × String)) (region repo registry : String) :
    Except PluginError Unit × List (Backend × String) :=
  let res := createRepository (fun _ => none)
    (fun b _ r => (ecrBackendCreate existing b r).1) region repo registry
  (res.1, if res.2 = [] then existing else (ecrBackendCreate existing (regBackend registry) repo).2)

/-! ## cmd/kaniko-ecr: policy uploads -/

def uploadLifeCyclePolicy (loadConfigErr : String → Option AwsErr)
    (putLifecycleRes : String → String → String → Option AwsErr)
    (region repo lifecyclePolicy : String) : Except PluginError Unit × List ApiCall :=
  match loadConfigErr region with
  | some _ => (.error (.registryError "failed to load aws config"), [])
  | none =>
    -- svc := ecr.NewFromConfig(cfg); svc.PutLifecyclePolicy(...), private family only
    match putLifecycleRes region repo lifecyclePolicy with
    | some _ =>
      (.error (.registryError "PutLifecyclePolicy"),
       [ApiCall.putLifecyclePolicy Backend.privateEcr region repo lifecyclePolicy])
    | none =>
      (.ok (), [ApiCall.putLifecyclePolicy Backend.privateEcr region repo lifecyclePolicy])

def uploadRepositoryPolicy (loadConfigErr : String → Option AwsErr)
    (setRepoPolicyRes : Backend → String → String → String → Option AwsErr)
    (region repo registry repositoryPolicy : String) :
    Except PluginError Unit × List ApiCall :=
  match loadConfigErr region with
  | some _ => (.error (.registryError "failed to load aws config"), [])
  | none =>
    let b := regBackend registry
    match setRepoPolicyRes b region repo repositoryPolicy with
    | some _ =>
      (.error (.registryError "SetRepositoryPolicy"),
       [ApiCall.setRepositoryPolicy b region repo repositoryPolicy])
    | none =>
      (.ok (), [ApiCall.setRepositoryPolicy b region repo repositoryPolicy])

/-! ## cmd/kaniko-ecr: the orchestrator `run`

`CliContext` holds the CLI inputs that steer the bootstrap; `World` bundles
the oracles for all external interactions. `readFile path` returns the file's
contents, or `none` on a read error; `writeFileOk path` is the outcome of
`ioutil.WriteFile`; `execOk` is the outcome of the delegated build executor.
The build executor itself is modelled from the spec as an opaque external
call (`plugin.Exec` lives outside the bootstrap sources). -/

structure CliContext where
  repo : String
  registry : String
  region : String
  noPush : Bool
  dockerUsername : String
  dockerPassword : String
  accessKey : String
  secretKey : String
  createRepository : Bool
  lifecyclePolicySet : Bool
  lifecyclePolicyPath : String
  repositoryPolicySet : Bool
  repositoryPolicyPath : String

structure World where
  setenvOk : String → String → Bool
  writeFileOk : String → Bool
  loadConfigErr : String → Option AwsErr
  createRepoRes : Backend → String → String → Option AwsErr
  putLifecycleRes : String → String → String → Option AwsErr
  setRepoPolicyRes : Backend → String → String → String → Option AwsErr
  readFile : String → Option String
  execOk : Bool

/-- The conditional repository-creation step of `run`:
only create repository when pushing and create-repository is true. -/
def runCreateRepoStage (w : World) (c : CliContext) :
    Except PluginError Unit × List Effect :=
  if !c.noPush && c.createRepository then
    let r := createRepository w.loadConfigErr w.createRepoRes c.region c.repo c.registry
    (r.1, r.2.map Effect.apiCall)
  else
    (.ok (), [])

/-- The lifecycle-policy step of `run`: read the policy file and upload it
when a path was configured (`logrus.Fatal` on failure is modelled as a fatal
error result). -/
def runLifecycleStage (w : World) (c : CliContext) :
    Except PluginError Unit × List Effect :=
  if c.lifecyclePolicySet then
    match w.readFile c.lifecyclePolicyPath with
    | none => (.error (.fileError c.lifecyclePolicyPath), [])
    | some contents =>
      let r := uploadLifeCyclePolicy w.loadConfigErr w.putLifecycleRes c.region c.repo contents
      (r.1, r.2.map Effect.apiCall)
  else
    (.ok (), [])

/-- The repository-policy step of `run`. -/
def runRepoPolicyStage (w : World) (c : CliContext) :
    Except PluginError Unit × List Effect :=
  if c.repositoryPolicySet then
    match w.readFile c.repositoryPolicyPath with
    | none => (.error (.fileError c.repositoryPolicyPath), [])
    | some contents =>
      let r := uploadRepositoryPolicy w.loadConfigErr w.setRepoPolicyRes c.region c.repo
        c.registry contents
      (r.1, r.2.map Effect.apiCall)
  else
    (.ok (), [])

/-- `run` from cmd/kaniko-ecr/main.go: credential synthesis, unconditional
config-file write, conditional repository creation, conditional policy
uploads, then a single delegation to the external build executor. -/
def run (w : World) (c : CliContext) : Except PluginError Unit × List Effect :=
  let dc := createDockerConfig w.setenvOk c.dockerUsername c.dockerPassword
    c.accessKey c.secretKey c.registry c.noPush
  match dc.1 with
  | .error e => (.error e, dc.2)
  | .ok dockerConfig =>
    if w.writeFileOk dockerConfigPath = false then
      (.error (.fileError dockerConfigPath), dc.2)
    else
      let effs1 := dc.2 ++ [Effect.writeFile dockerConfigPath (encodeConfig dockerConfig)]
      let cr := runCreateRepoStage w c
      match cr.1 with
      | .error e => (.error e, effs1 ++ cr.2)
      | .ok _ =>
        let lp := runLifecycleStage w c
        match lp.1 with
        | .error e => (.error e, effs1 ++ cr.2 ++ lp.2)
        | .ok _ =>
          let rp := runRepoPolicyStage w c
          match rp.1 with
          | .error e => (.error e, effs1 ++ cr.2 ++ lp.2 ++ rp.2)
          | .ok _ =>
            ((if w.execOk then Except.ok () else Except.error PluginError.delegateError),
             effs1 ++ cr.2 ++ lp.2 ++ rp.2 ++ [Effect.execBuild])

/-! ## cmd/kaniko-gcr -/

structure GcrContext where
  noPush : Bool
  jsonKey : String

/-- `setupGCRAuth` from cmd/kaniko-gcr/main.go: write the JSON key to the
fixed key-file path, then export the credentials environment variable
pointing at it. -/
def setupGCRAuth (writeOk : String → Bool) (setenvOk : String → String → Bool)
    (jsonKey : String) : Except PluginError Unit × List Effect :=
  if writeOk gcrKeyPath = false then
    (.error (.fileError "failed to write GCR JSON key"), [])
  else if setenvOk gcrEnvVariable gcrKeyPath = false then
    (.error (.envError gcrEnvVariable), [Effect.writeFile gcrKeyPath jsonKey])
  else
    (.ok (), [Effect.writeFile gcrKeyPath jsonKey, Effect.setEnv gcrEnvVariable gcrKeyPath])

/-- `run` from cmd/kaniko-gcr/main.go: auth setup iff the JSON key is
non-empty, then delegation to the external build executor. -/
def Gcr.run (writeOk : String → Bool) (setenvOk : String → String → Bool)
    (execOk : Bool) (c : GcrContext) : Except PluginError Unit × List Effect :=
  if c.jsonKey ≠ "" then
    let a := setupGCRAuth writeOk setenvOk c.jsonKey
    match a.1 with
    | .error e => (.error e, a.2)
    | .ok _ =>
      ((if execOk then Except.ok () else Except.error PluginError.delegateError),
       a.2 ++ [Effect.execBuild])
  else
    ((if execOk then Except.ok () else Except.error PluginError.delegateError),
     [Effect.execBuild])

/-! ## Helper lemmas -/

/-- Concrete oracles for witnesses: no AWS errors. -/
def noAwsErr : String → Option AwsErr := fun _ => none

def alwaysOkCreate : Backend → String → String → Option AwsErr := fun _ _ _ => none

def alwaysOkPut : String → String → String → Option AwsErr := fun _ _ _ => none

def alwaysOkSetPolicy : Backend → String → String → String → Option AwsErr :=
  fun _ _ _ _ => none

theorem createRepository_calls (loadConfigErr : String → Option AwsErr)
    (createRepoRes : Backend → String → String → Option AwsErr)
    (region repo registry : String)
    (hreg : ¬ registry = "") (hrepo : ¬ repo = "") (hload : loadConfigErr region = none) :
    (createRepository loadConfigErr createRepoRes region repo registry).2 =
      [ApiCall.createRepo (regBackend registry) region repo] := by
  unfold createRepository
  rw [if_neg hreg, if_neg hrepo, hload]
  dsimp only
  rcases h : createRepoRes (regBackend registry) region repo with _ | e
  · rfl
  · rcases e with code | _
    · dsimp only
      split <;> rfl
    · rfl

theorem createRepository_result (loadConfigErr : String → Option AwsErr)
    (createRepoRes : Backend → String → String → Option AwsErr)
    (region repo registry : String)
    (hreg : ¬ registry = "") (hrepo : ¬ repo = "") (hload : loadConfigErr region = none) :
    (createRepository loadConfigErr createRepoRes region repo registry).1 =
      (match createRepoRes (regBackend registry) region repo with
       | some (AwsErr.api code) =>
         if code ≠ "RepositoryAlreadyExistsException" then
           Except.error (PluginError.registryError "failed to create repository")
         else Except.ok ()
       | _ => Except.ok ()) := by
  unfold createRepository
  rw [if_neg hreg, if_neg hrepo, hload]
  dsimp only
  rcases h : createRepoRes (regBackend registry) region repo with _ | e
  · rfl
  · rcases e with code | _
    · dsimp only
      split <;> rfl
    · rfl

theorem mem_ecrBackendCreate (st : List (Backend × String)) (b : Backend) (repo : String) :
    (b, repo) ∈ (ecrBackendCreate st b repo).2 := by
  unfold ecrBackendCreate
  by_cases h : (b, repo) ∈ st
  · simp [h]
  · simp [h]

theorem ecrBackendCreate_already (st : List (Backend × String)) (b : Backend) (repo : String)
    (h : (b, repo) ∈ st) :
    (ecrBackendCreate st b repo).1 = some (AwsErr.api "RepositoryAlreadyExistsException") := by
  unfold ecrBackendCreate
  simp [h]

theorem createRepositoryS_state (st : List (Backend × String)) (region repo registry : String)
    (hreg : ¬ registry = "") (hrepo : ¬ repo = "") :
    (createRepositoryS st region repo registry).2 =
      (ecrBackendCreate st (regBackend registry) repo).2 := by
  unfold createRepositoryS
  dsimp only
  rw [createRepository_calls _ _ _ _ _ hreg hrepo rfl]
  simp

/-! ## Claims -/

/-- C1: for every region, repository name and registry host, `createRepository`
treats a backend API error with code `RepositoryAlreadyExistsException` as
success, returns a wrapped fatal error for a backend API error with any other
code, and against the honest backend a second invocation on the same
(region, repo, registry) never fails because the repository already exists. -/
theorem createRepository_idempotent (region repo registry : String)
    (hreg : ¬ registry = "") (hrepo : ¬ repo = "") :
    (∀ loadConfigErr createRepoRes, loadConfigErr region = none →
      createRepoRes (regBackend registry) region repo =
          some (AwsErr.api "RepositoryAlreadyExistsException") →
      (createRepository loadConfigErr createRepoRes region repo registry).1 =
        Except.ok ()) ∧
    (∀ loadConfigErr createRepoRes code, loadConfigErr region = none →
      createRepoRes (regBackend registry) region repo = some (AwsErr.api code) →
      ¬ code = "RepositoryAlreadyExistsException" →
      (createRepository loadConfigErr createRepoRes region repo registry).1 =
        Except.error (PluginError.registryError "failed to create repository")) ∧
    (∀ st, (createRepositoryS (createRepositoryS st region repo registry).2
        region repo registry).1 = Except.ok ()) := by
  refine ⟨?_, ?_, ?_⟩
  · intro loadConfigErr createRepoRes hload hres
    rw [createRepository_result _ _ _ _ _ hreg hrepo hload, hres]
    simp
  · intro loadConfigErr createRepoRes code hload hres hcode
    rw [createRepository_result _ _ _ _ _ hreg hrepo hload, hres]
    simp [hcode]
  · intro st
    have hmem : (regBackend registry, repo) ∈ (createRepositoryS st region repo registry).2 := by
      rw [createRepositoryS_state st region repo registry hreg hrepo]
      exact mem_ecrBackendCreate st (regBackend registry) repo
    generalize hg : (createRepositoryS st region repo registry).2 = st₁ at hmem ⊢
    have h1 : (createRepositoryS st₁ region repo registry).1 =
        (createRepository (fun _ => none) (fun b _ r => (ecrBackendCreate st₁ b r).1)
          region repo registry).1 := rfl
    rw [h1, createRepository_result _ _ _ _ _ hreg hrepo rfl]
    rw [ecrBackendCreate_already _ _ _ hmem]
    simp

/-- C1 witness: a concrete instantiation for region "us-east-1", repo "app",
registry "123.dkr.ecr.us-east-1.amazonaws.com", starting from an empty
backend. -/
theorem createRepository_idempotent_witness :
    (createRepositoryS
      (createRepositoryS [] "us-east-1" "app" "123.dkr.ecr.us-east-1.amazonaws.com").2
      "us-east-1" "app" "123.dkr.ecr.us-east-1.amazonaws.com").1 = Except.ok () :=
  (createRepository_idempotent "us-east-1" "app" "123.dkr.ecr.us-east-1.amazonaws.com"
    (by decide) (by decide)).2.2 []

/-- C4: a registry host is classified public exactly when it equals or is
prefixed by the public-registry domain, and the input registry
"public.ecr.aws/myorg" routes the create-repository call to the public API
family. -/
theorem isRegistryPublic_classification :
    (∀ registry : String, isRegistryPublic registry = true ↔
        (registry = ecrPublicDomain ∨ ∃ rest : String, registry = ecrPublicDomain ++ rest)) ∧
    (∀ loadConfigErr createRepoRes, loadConfigErr "us-east-1" = (none : Option AwsErr) →
      (createRepository loadConfigErr createRepoRes "us-east-1" "app"
          "public.ecr.aws/myorg").2 =
        [ApiCall.createRepo Backend.publicEcr "us-east-1" "app"]) := by
  constructor
  · intro registry
    constructor
    · intro h
      rcases List.isPrefixOf_iff_prefix.mp h with ⟨t, ht⟩
      refine Or.inr ⟨⟨t⟩, String.ext ?_⟩
      rw [String.data_append]
      exact ht.symm
    · rintro (rfl | ⟨rest, rfl⟩)
      · decide
      · unfold isRegistryPublic
        refine List.isPrefixOf_iff_prefix.mpr ⟨rest.data, ?_⟩
        rw [String.data_append]
  · intro loadConfigErr createRepoRes hload
    rw [createRepository_calls _ _ _ _ _ (by decide) (by decide) hload]
    have hpub : regBackend "public.ecr.aws/myorg" = Backend.publicEcr := by decide
    rw [hpub]

/-- C4 witness: the classification at the scenario host and the routed call
with concrete error-free oracles. -/
theorem isRegistryPublic_classification_witness :
    (isRegistryPublic "public.ecr.aws/myorg" = true ↔
        ("public.ecr.aws/myorg" = ecrPublicDomain ∨
          ∃ rest : String, "public.ecr.aws/myorg" = ecrPublicDomain ++ rest)) ∧
    (createRepository noAwsErr alwaysOkCreate "us-east-1" "app" "public.ecr.aws/myorg").2 =
      [ApiCall.createRepo Backend.publicEcr "us-east-1" "app"] :=
  ⟨isRegistryPublic_classification.1 "public.ecr.aws/myorg",
   isRegistryPublic_classification.2 noAwsErr alwaysOkCreate rfl⟩

/-- C7: `createRepository` fails with a configuration error when the
repository name or the registry host is empty, and no backend API call is
made. -/
theorem createRepository_empty_guards (loadConfigErr : String → Option AwsErr)
    (createRepoRes : Backend → String → String → Option AwsErr)
    (region repo registry : String) (h : repo = "" ∨ registry = "") :
    (∃ m, (createRepository loadConfigErr createRepoRes region repo registry).1 =
        Except.error (PluginError.configError m)) ∧
    (createRepository loadConfigErr createRepoRes region repo registry).2 = [] := by
  unfold createRepository
  by_cases hreg : registry = ""
  · rw [if_pos hreg]
    exact ⟨⟨"registry must be specified", rfl⟩, rfl⟩
  · rcases h with hrepo | hreg'
    · rw [if_neg hreg, if_pos hrepo]
      exact ⟨⟨"repo must be specified", rfl⟩, rfl⟩
    · exact absurd hreg' hreg

/-- C7 witness: empty repository name with a non-empty registry host. -/
theorem createRepository_empty_guards_witness :
    ("" = "" ∨ "123.dkr.ecr.us-east-1.amazonaws.com" = "") ∧
    ((∃ m, (createRepository noAwsErr alwaysOkCreate "us-east-1" ""
        "123.dkr.ecr.us-east-1.amazonaws.com").1 =
        Except.error (PluginError.configError m)) ∧
    (createRepository noAwsErr alwaysOkCreate "us-east-1" ""
        "123.dkr.ecr.us-east-1.amazonaws.com").2 = []) :=
  ⟨Or.inl rfl, createRepository_empty_guards noAwsErr alwaysOkCreate _ _ _ (Or.inl rfl)⟩

/-- C9: when the backend create call fails with an error that carries no API
error code (e.g. a transport failure), `createRepository` returns success and
the failure is not surfaced. -/
theorem createRepository_swallows_non_api (loadConfigErr : String → Option AwsErr)
    (createRepoRes : Backend → String → String → Option AwsErr)
    (region repo registry : String)
    (hreg : ¬ registry = "") (hrepo : ¬ repo = "") (hload : loadConfigErr region = none)
    (hres : createRepoRes (regBackend registry) region repo = some AwsErr.nonApi) :
    (createRepository loadConfigErr createRepoRes region repo registry).1 =
      Except.ok () := by
  rw [createRepository_result _ _ _ _ _ hreg hrepo hload, hres]

/-- C9 witness: a concrete transport failure on the private backend. -/
theorem createRepository_swallows_non_api_witness :
    (createRepository noAwsErr (fun _ _ _ => some AwsErr.nonApi) "us-east-1" "app"
        "123.dkr.ecr.us-east-1.amazonaws.com").1 = Except.ok () :=
  createRepository_swallows_non_api noAwsErr (fun _ _ _ => some AwsErr.nonApi)
    "us-east-1" "app" "123.dkr.ecr.us-east-1.amazonaws.com"
    (by decide) (by decide) rfl rfl

theorem setAssoc_ne_nil {α : Type} (m : List (String × α)) (k : String) (v : α) :
    setAssoc m k v ≠ [] := by
  cases m with
  | nil => simp [setAssoc]
  | cons hd tl =>
    unfold setAssoc
    split <;> simp

theorem lookupAssoc_setAssoc_self {α : Type} (m : List (String × α)) (k : String) (v : α) :
    lookupAssoc (setAssoc m k v) k = some v := by
  induction m with
  | nil => simp [setAssoc, lookupAssoc]
  | cons hd tl ih =>
    obtain ⟨k', v'⟩ := hd
    by_cases h : k' = k
    · simp [setAssoc, lookupAssoc, h]
    · simp [setAssoc, lookupAssoc, h, ih]

theorem lookupAssoc_setAssoc_other {α : Type} (m : List (String × α)) (k k' : String)
    (v : α) (h : ¬ k' = k) :
    lookupAssoc (setAssoc m k' v) k = lookupAssoc m k := by
  induction m with
  | nil => simp [setAssoc, lookupAssoc, h]
  | cons hd tl ih =>
    obtain ⟨k'', v''⟩ := hd
    by_cases h2 : k'' = k'
    · simp [setAssoc, lookupAssoc, h2, h]
    · simp only [setAssoc, lookupAssoc, if_neg h2]
      by_cases h3 : k'' = k
      · simp [lookupAssoc, h3]
      · simp [lookupAssoc, h3, ih]

/-- Every successful credential synthesis in the auth-needed case produces the
config that binds the public domain and the target registry to `ecr-login`
on top of the optional username entry. -/
theorem createDockerConfig_ok_shape (setenvOk : String → String → Bool)
    (u p ak sk registry : String) (noPush : Bool) (cfg : DockerConfig)
    (hcond : (!noPush || ak ≠ "") = true)
    (hok : (createDockerConfig setenvOk u p ak sk registry noPush).1 = Except.ok cfg) :
    cfg = ((if u ≠ "" then DockerConfig.new.setAuth RegistryV1 u p
        else DockerConfig.new).setCredHelper ecrPublicDomain
        "ecr-login").setCredHelper registry "ecr-login" := by
  unfold createDockerConfig at hok
  dsimp only at hok
  rw [hcond] at hok
  simp only [if_true] at hok
  split at hok
  · simp at hok
  · split at hok
    · split at hok
      · simp at hok
      · split at hok
        · simp at hok
        · simp only [Except.ok.injEq] at hok
          exact hok.symm
    · simp only [Except.ok.injEq] at hok
      exact hok.symm

/-- C2 (counterexample): for a registry host classified public by the
host-prefix test, `uploadLifeCyclePolicy` still routes its set-policy call to
the private backend — it does not select the backend by the prefix test. -/
theorem uploadLifeCyclePolicy_ignores_prefix_test :
    isRegistryPublic "public.ecr.aws/myorg" = true ∧
    (uploadLifeCyclePolicy noAwsErr alwaysOkPut "us-east-1" "app" "policy-text").2 =
      [ApiCall.putLifecyclePolicy Backend.privateEcr "us-east-1" "app" "policy-text"] ∧
    Backend.privateEcr ≠ Backend.publicEcr :=
  ⟨by decide, rfl, by decide⟩

/-- C2 (amended): `uploadRepositoryPolicy` selects the public or private
backend by the same host-prefix test as `createRepository` and forwards the
policy text verbatim; `uploadLifeCyclePolicy` takes no registry host and
always forwards the policy text verbatim to the private backend's
lifecycle-policy operation. -/
theorem policy_uploads_backends (loadConfigErr : String → Option AwsErr)
    (putLifecycleRes : String → String → String → Option AwsErr)
    (setRepoPolicyRes : Backend → String → String → String → Option AwsErr)
    (region repo registry lifecycleText repoText : String)
    (hload : loadConfigErr region = none) :
    (uploadLifeCyclePolicy loadConfigErr putLifecycleRes region repo lifecycleText).2 =
      [ApiCall.putLifecyclePolicy Backend.privateEcr region repo lifecycleText] ∧
    (uploadRepositoryPolicy loadConfigErr setRepoPolicyRes region repo registry repoText).2 =
      [ApiCall.setRepositoryPolicy (regBackend registry) region repo repoText] := by
  constructor
  · unfold uploadLifeCyclePolicy
    rw [hload]
    dsimp only
    split <;> rfl
  · unfold uploadRepositoryPolicy
    rw [hload]
    dsimp only
    split <;> rfl

/-- C2 witness: the amended claim at concrete inputs, one private and the
policy texts forwarded verbatim. -/
theorem policy_uploads_backends_witness :
    (uploadLifeCyclePolicy noAwsErr alwaysOkPut "us-east-1" "app" "lifecycle-doc").2 =
      [ApiCall.putLifecyclePolicy Backend.privateEcr "us-east-1" "app" "lifecycle-doc"] ∧
    (uploadRepositoryPolicy noAwsErr alwaysOkSetPolicy "us-east-1" "app"
        "123.dkr.ecr.us-east-1.amazonaws.com" "repo-doc").2 =
      [ApiCall.setRepositoryPolicy (regBackend "123.dkr.ecr.us-east-1.amazonaws.com")
        "us-east-1" "app" "repo-doc"] :=
  policy_uploads_backends noAwsErr alwaysOkPut alwaysOkSetPolicy
    "us-east-1" "app" "123.dkr.ecr.us-east-1.amazonaws.com" "lifecycle-doc" "repo-doc" rfl

/-- C5: credential synthesis performs auth setup exactly when a push is
requested or an access key is supplied; when auth setup is needed, an empty
registry host fails with a configuration error, no environment variable is
exported, and at run level no backend API call is attempted and the exit
code is non-zero. -/
theorem createDockerConfig_auth_needed_gate :
    (∀ setenvOk u p ak sk registry noPush, (!noPush || ak ≠ "") = false →
      createDockerConfig setenvOk u p ak sk registry noPush =
        (Except.ok (if u ≠ "" then DockerConfig.new.setAuth RegistryV1 u p
          else DockerConfig.new), []) ∧
      (if u ≠ "" then DockerConfig.new.setAuth RegistryV1 u p
          else DockerConfig.new).credHelpers = []) ∧
    (∀ setenvOk u p ak sk registry noPush cfg, (!noPush || ak ≠ "") = true →
      (createDockerConfig setenvOk u p ak sk registry noPush).1 = Except.ok cfg →
      cfg.credHelpers ≠ []) ∧
    (∀ setenvOk u p ak sk noPush, (!noPush || ak ≠ "") = true →
      createDockerConfig setenvOk u p ak sk "" noPush =
        (Except.error (PluginError.configError "registry must be specified"), [])) ∧
    (∀ w c, c.registry = "" → c.noPush = false →
      (run w c).1 = Except.error (PluginError.configError "registry must be specified") ∧
      exitCode (run w c).1 ≠ 0 ∧ (run w c).2 = []) := by
  refine ⟨?_, ?_, ?_, ?_⟩
  · intro setenvOk u p ak sk registry noPush h
    constructor
    · unfold createDockerConfig
      dsimp only
      rw [h]
      simp
    · split <;> simp [DockerConfig.new, DockerConfig.setAuth]
  · intro setenvOk u p ak sk registry noPush cfg hcond hok
    rw [createDockerConfig_ok_shape setenvOk u p ak sk registry noPush cfg hcond hok]
    exact setAssoc_ne_nil _ _ _
  · intro setenvOk u p ak sk noPush h
    unfold createDockerConfig
    dsimp only
    rw [h]
    simp
  · intro w c hreg hpush
    have hdc : createDockerConfig w.setenvOk c.dockerUsername c.dockerPassword
        c.accessKey c.secretKey c.registry c.noPush =
        (Except.error (PluginError.configError "registry must be specified"), []) := by
      rw [hreg]
      unfold createDockerConfig
      dsimp only
      rw [hpush]
      simp
    refine ⟨?_, ?_, ?_⟩ <;>
      simp [run, hdc, exitCode]

/-- C5 witness: push requested, no access key, empty registry: configuration
error, exit code 1, empty effect trace; and the no-auth branch at a concrete
input. -/
theorem createDockerConfig_auth_needed_gate_witness :
    ((!true || "" ≠ "") = false ∧
      createDockerConfig (fun _ _ => true) "" "" "" "" "reg" true =
        (Except.ok DockerConfig.new, [])) ∧
    ((!false || "" ≠ "") = true ∧
      createDockerConfig (fun _ _ => true) "" "" "" "" "" false =
        (Except.error (PluginError.configError "registry must be specified"), [])) := by
  constructor
  · refine ⟨by decide, ?_⟩
    have h := (createDockerConfig_auth_needed_gate.1 (fun _ _ => true) "" "" "" "" "reg" true
      (by decide)).1
    simpa using h
  · exact ⟨by decide, createDockerConfig_auth_needed_gate.2.2.1 (fun _ _ => true)
      "" "" "" "" false (by decide)⟩

/-- C6: whenever auth setup is performed and credential synthesis succeeds,
the resulting config binds both the public-registry domain and the target
registry host to the `ecr-login` credential helper. -/
theorem createDockerConfig_binds_helpers (setenvOk : String → String → Bool)
    (u p ak sk registry : String) (noPush : Bool) (cfg : DockerConfig)
    (hcond : (!noPush || ak ≠ "") = true)
    (hok : (createDockerConfig setenvOk u p ak sk registry noPush).1 = Except.ok cfg) :
    lookupAssoc cfg.credHelpers ecrPublicDomain = some "ecr-login" ∧
    lookupAssoc cfg.credHelpers registry = some "ecr-login" := by
  rw [createDockerConfig_ok_shape setenvOk u p ak sk registry noPush cfg hcond hok]
  constructor
  · by_cases h : registry = ecrPublicDomain
    · rw [DockerConfig.setCredHelper, h]
      exact lookupAssoc_setAssoc_self _ _ _
    · rw [DockerConfig.setCredHelper]
      dsimp only
      rw [lookupAssoc_setAssoc_other _ _ _ _ h]
      exact lookupAssoc_setAssoc_self _ _ _
  · exact lookupAssoc_setAssoc_self _ _ _

/-- C6 witness: a push to a private registry with no static keys binds both
hosts to `ecr-login`. -/
theorem createDockerConfig_binds_helpers_witness :
    (!false || "" ≠ "") = true ∧
    (createDockerConfig (fun _ _ => true) "" "" "" ""
        "123.dkr.ecr.us-east-1.amazonaws.com" false).1 =
      Except.ok ((DockerConfig.new.setCredHelper ecrPublicDomain
        "ecr-login").setCredHelper "123.dkr.ecr.us-east-1.amazonaws.com" "ecr-login") ∧
    lookupAssoc ((DockerConfig.new.setCredHelper ecrPublicDomain
        "ecr-login").setCredHelper "123.dkr.ecr.us-east-1.amazonaws.com"
        "ecr-login").credHelpers ecrPublicDomain = some "ecr-login" ∧
    lookupAssoc ((DockerConfig.new.setCredHelper ecrPublicDomain
        "ecr-login").setCredHelper "123.dkr.ecr.us-east-1.amazonaws.com"
        "ecr-login").credHelpers "123.dkr.ecr.us-east-1.amazonaws.com" =
      some "ecr-login" :=
  ⟨by decide, by rfl,
   createDockerConfig_binds_helpers (fun _ _ => true) "" "" "" ""
     "123.dkr.ecr.us-east-1.amazonaws.com" false _ (by decide) (by rfl)⟩

/-! ## Effect-trace lemmas for `run` -/

/-- Number of build-executor invocations in an effect trace. -/
def countExec : List Effect → Nat
  | [] => 0
  | Effect.execBuild :: rest => countExec rest + 1
  | _ :: rest => countExec rest

/-- A trace with no exported environment variable. -/
def noSetEnv (l : List Effect) : Bool :=
  l.all (fun e => !e.isSetEnv)

/-- Whether an effect writes the credential document path. -/
def writesDockerConfigFile : Effect → Bool
  | Effect.writeFile path _ => path = dockerConfigPath
  | _ => false

theorem countExec_append (l₁ l₂ : List Effect) :
    countExec (l₁ ++ l₂) = countExec l₁ + countExec l₂ := by
  induction l₁ with
  | nil => simp [countExec]
  | cons hd tl ih =>
    cases hd with
    | setEnv k v => simp [countExec, ih]
    | writeFile p s => simp [countExec, ih]
    | apiCall a => simp [countExec, ih]
    | execBuild =>
      simp only [List.cons_append, countExec]
      show countExec (tl ++ l₂) + 1 = countExec tl + 1 + countExec l₂
      rw [ih]
      omega

theorem countExec_eq_zero (l : List Effect) (h : Effect.execBuild ∉ l) :
    countExec l = 0 := by
  induction l with
  | nil => rfl
  | cons hd tl ih =>
    rw [List.mem_cons, not_or] at h
    cases hd with
    | execBuild => exact absurd rfl h.1
    | setEnv k v => exact ih h.2
    | writeFile p s => exact ih h.2
    | apiCall a => exact ih h.2

theorem mem_createDockerConfig_isSetEnv (setenvOk : String → String → Bool)
    (u p ak sk registry : String) (noPush : Bool) (e : Effect)
    (he : e ∈ (createDockerConfig setenvOk u p ak sk registry noPush).2) :
    e.isSetEnv = true := by
  unfold createDockerConfig at he
  dsimp only at he
  split at he
  · split at he
    · simp at he
    · split at he
      · split at he
        · simp at he
        · split at he
          · simp at he
            rw [he]
            rfl
          · simp at he
            rcases he with rfl | rfl <;> rfl
      · simp at he
  · simp at he

theorem mem_createRepoStage_isApiCall (w : World) (c : CliContext) (e : Effect)
    (he : e ∈ (runCreateRepoStage w c).2) : e.isApiCall = true := by
  unfold runCreateRepoStage at he
  dsimp only at he
  split at he
  · rcases List.mem_map.mp he with ⟨a, _, rfl⟩
    rfl
  · simp at he

theorem mem_lifecycleStage_isApiCall (w : World) (c : CliContext) (e : Effect)
    (he : e ∈ (runLifecycleStage w c).2) : e.isApiCall = true := by
  unfold runLifecycleStage at he
  dsimp only at he
  split at he
  · split at he
    · simp at he
    · rcases List.mem_map.mp he with ⟨a, _, rfl⟩
      rfl
  · simp at he

theorem mem_repoPolicyStage_isApiCall (w : World) (c : CliContext) (e : Effect)
    (he : e ∈ (runRepoPolicyStage w c).2) : e.isApiCall = true := by
  unfold runRepoPolicyStage at he
  dsimp only at he
  split at he
  · split at he
    · simp at he
    · rcases List.mem_map.mp he with ⟨a, _, rfl⟩
      rfl
  · simp at he

theorem execBuild_not_mem_createDockerConfig (setenvOk : String → String → Bool)
    (u p ak sk registry : String) (noPush : Bool) :
    Effect.execBuild ∉ (createDockerConfig setenvOk u p ak sk registry noPush).2 := by
  intro h
  exact absurd (mem_createDockerConfig_isSetEnv setenvOk u p ak sk registry noPush _ h)
    (by decide)

theorem execBuild_not_mem_createRepoStage (w : World) (c : CliContext) :
    Effect.execBuild ∉ (runCreateRepoStage w c).2 := by
  intro h
  exact absurd (mem_createRepoStage_isApiCall w c _ h) (by decide)

theorem execBuild_not_mem_lifecycleStage (w : World) (c : CliContext) :
    Effect.execBuild ∉ (runLifecycleStage w c).2 := by
  intro h
  exact absurd (mem_lifecycleStage_isApiCall w c _ h) (by decide)

theorem execBuild_not_mem_repoPolicyStage (w : World) (c : CliContext) :
    Effect.execBuild ∉ (runRepoPolicyStage w c).2 := by
  intro h
  exact absurd (mem_repoPolicyStage_isApiCall w c _ h) (by decide)

/-- Every effect of a run is: an effect of credential synthesis, the
credential-document write, a backend API call, or the build delegation. -/
theorem run_effects_cases (w : World) (c : CliContext) (e : Effect)
    (he : e ∈ (run w c).2) :
    e ∈ (createDockerConfig w.setenvOk c.dockerUsername c.dockerPassword
        c.accessKey c.secretKey c.registry c.noPush).2 ∨
    (∃ s, e = Effect.writeFile dockerConfigPath s) ∨
    e.isApiCall = true ∨ e = Effect.execBuild := by
  unfold run at he
  dsimp only at he
  split at he
  · exact Or.inl he
  · split at he
    · exact Or.inl he
    · split at he
      · simp only [List.mem_append, List.mem_singleton] at he
        rcases he with (h | h) | h
        · exact Or.inl h
        · exact Or.inr (Or.inl ⟨_, h⟩)
        · exact Or.inr (Or.inr (Or.inl (mem_createRepoStage_isApiCall w c e h)))
      · split at he
        · simp only [List.mem_append, List.mem_singleton] at he
          rcases he with ((h | h) | h) | h
          · exact Or.inl h
          · exact Or.inr (Or.inl ⟨_, h⟩)
          · exact Or.inr (Or.inr (Or.inl (mem_createRepoStage_isApiCall w c e h)))
          · exact Or.inr (Or.inr (Or.inl (mem_lifecycleStage_isApiCall w c e h)))
        · split at he
          · simp only [List.mem_append, List.mem_singleton] at he
            rcases he with (((h | h) | h) | h) | h
            · exact Or.inl h
            · exact Or.inr (Or.inl ⟨_, h⟩)
            · exact Or.inr (Or.inr (Or.inl (mem_createRepoStage_isApiCall w c e h)))
            · exact Or.inr (Or.inr (Or.inl (mem_lifecycleStage_isApiCall w c e h)))
            · exact Or.inr (Or.inr (Or.inl (mem_repoPolicyStage_isApiCall w c e h)))
          · simp only [List.mem_append, List.mem_singleton] at he
            rcases he with ((((h | h) | h) | h) | h) | h
            · exact Or.inl h
            · exact Or.inr (Or.inl ⟨_, h⟩)
            · exact Or.inr (Or.inr (Or.inl (mem_createRepoStage_isApiCall w c e h)))
            · exact Or.inr (Or.inr (Or.inl (mem_lifecycleStage_isApiCall w c e h)))
            · exact Or.inr (Or.inr (Or.inl (mem_repoPolicyStage_isApiCall w c e h)))
            · exact Or.inr (Or.inr (Or.inr h))

/-- The no-auth branch of credential synthesis: nothing exported, no
credential-helper bindings. -/
theorem createDockerConfig_no_auth (setenvOk : String → String → Bool)
    (u p ak sk registry : String) (noPush : Bool)
    (h : (!noPush || ak ≠ "") = false) :
    createDockerConfig setenvOk u p ak sk registry noPush =
      (Except.ok (if u ≠ "" then DockerConfig.new.setAuth RegistryV1 u p
        else DockerConfig.new), []) := by
  unfold createDockerConfig
  dsimp only
  rw [h]
  simp

theorem noAuthConfig_credHelpers (u p : String) :
    (if u ≠ "" then DockerConfig.new.setAuth RegistryV1 u p
      else DockerConfig.new).credHelpers = [] := by
  split <;> rfl

/-- When credential synthesis succeeds and the config write succeeds, the run
trace starts with the synthesis effects followed by the credential-document
write. -/
theorem run_writes_file (w : World) (c : CliContext) (cfg : DockerConfig)
    (effs : List Effect)
    (hdc : createDockerConfig w.setenvOk c.dockerUsername c.dockerPassword c.accessKey
        c.secretKey c.registry c.noPush = (Except.ok cfg, effs))
    (hw : w.writeFileOk dockerConfigPath = true) :
    ∃ tail, (run w c).2 =
      effs ++ Effect.writeFile dockerConfigPath (encodeConfig cfg) :: tail := by
  unfold run
  rw [hdc]
  dsimp only
  rw [if_neg (by rw [hw]; simp : ¬ (w.writeFileOk dockerConfigPath = false))]
  split
  · exact ⟨(runCreateRepoStage w c).2, by simp⟩
  · split
    · exact ⟨(runCreateRepoStage w c).2 ++ (runLifecycleStage w c).2, by simp⟩
    · split
      · exact ⟨(runCreateRepoStage w c).2 ++ (runLifecycleStage w c).2 ++
          (runRepoPolicyStage w c).2, by simp⟩
      · exact ⟨(runCreateRepoStage w c).2 ++ (runLifecycleStage w c).2 ++
          (runRepoPolicyStage w c).2 ++ [Effect.execBuild], by simp⟩

/-! ## Branch characterizations of `run` -/

theorem run_eq_of_dc_error (w : World) (c : CliContext) (err : PluginError)
    (hdc : (createDockerConfig w.setenvOk c.dockerUsername c.dockerPassword c.accessKey
        c.secretKey c.registry c.noPush).1 = Except.error err) :
    run w c = (Except.error err, (createDockerConfig w.setenvOk c.dockerUsername
      c.dockerPassword c.accessKey c.secretKey c.registry c.noPush).2) := by
  unfold run
  dsimp only
  rw [hdc]

theorem run_eq_of_write_fail (w : World) (c : CliContext) (cfg : DockerConfig)
    (hdc : (createDockerConfig w.setenvOk c.dockerUsername c.dockerPassword c.accessKey
        c.secretKey c.registry c.noPush).1 = Except.ok cfg)
    (hw : w.writeFileOk dockerConfigPath = false) :
    run w c = (Except.error (PluginError.fileError dockerConfigPath),
      (createDockerConfig w.setenvOk c.dockerUsername c.dockerPassword c.accessKey
        c.secretKey c.registry c.noPush).2) := by
  unfold run
  dsimp only
  rw [hdc]
  dsimp only
  rw [if_pos hw]

theorem run_eq_of_cr_error (w : World) (c : CliContext) (cfg : DockerConfig)
    (err : PluginError)
    (hdc : (createDockerConfig w.setenvOk c.dockerUsername c.dockerPassword c.accessKey
        c.secretKey c.registry c.noPush).1 = Except.ok cfg)
    (hw : w.writeFileOk dockerConfigPath = true)
    (hcr : (runCreateRepoStage w c).1 = Except.error err) :
    run w c = (Except.error err,
      (createDockerConfig w.setenvOk c.dockerUsername c.dockerPassword c.accessKey
        c.secretKey c.registry c.noPush).2 ++
      [Effect.writeFile dockerConfigPath (encodeConfig cfg)] ++
      (runCreateRepoStage w c).2) := by
  unfold run
  dsimp only
  rw [hdc]
  dsimp only
  rw [if_neg (by rw [hw]; simp : ¬ (w.writeFileOk dockerConfigPath = false)), hcr]

theorem run_eq_of_lp_error (w : World) (c : CliContext) (cfg : DockerConfig)
    (err : PluginError)
    (hdc : (createDockerConfig w.setenvOk c.dockerUsername c.dockerPassword c.accessKey
        c.secretKey c.registry c.noPush).1 = Except.ok cfg)
    (hw : w.writeFileOk dockerConfigPath = true)
    (hcr : (runCreateRepoStage w c).1 = Except.ok ())
    (hlp : (runLifecycleStage w c).1 = Except.error err) :
    run w c = (Except.error err,
      (createDockerConfig w.setenvOk c.dockerUsername c.dockerPassword c.accessKey
        c.secretKey c.registry c.noPush).2 ++
      [Effect.writeFile dockerConfigPath (encodeConfig cfg)] ++
      (runCreateRepoStage w c).2 ++ (runLifecycleStage w c).2) := by
  unfold run
  dsimp only
  rw [hdc]
  dsimp only
  rw [if_neg (by rw [hw]; simp : ¬ (w.writeFileOk dockerConfigPath = false)), hcr, hlp]

theorem run_eq_of_rp_error (w : World) (c : CliContext) (cfg : DockerConfig)
    (err : PluginError)
    (hdc : (createDockerConfig w.setenvOk c.dockerUsername c.dockerPassword c.accessKey
        c.secretKey c.registry c.noPush).1 = Except.ok cfg)
    (hw : w.writeFileOk dockerConfigPath = true)
    (hcr : (runCreateRepoStage w c).1 = Except.ok ())
    (hlp : (runLifecycleStage w c).1 = Except.ok ())
    (hrp : (runRepoPolicyStage w c).1 = Except.error err) :
    run w c = (Except.error err,
      (createDockerConfig w.setenvOk c.dockerUsername c.dockerPassword c.accessKey
        c.secretKey c.registry c.noPush).2 ++
      [Effect.writeFile dockerConfigPath (encodeConfig cfg)] ++
      (runCreateRepoStage w c).2 ++ (runLifecycleStage w c).2 ++
      (runRepoPolicyStage w c).2) := by
  unfold run
  dsimp only
  rw [hdc]
  dsimp only
  rw [if_neg (by rw [hw]; simp : ¬ (w.writeFileOk dockerConfigPath = false)), hcr, hlp, hrp]

theorem run_eq_of_all_ok (w : World) (c : CliContext) (cfg : DockerConfig)
    (hdc : (createDockerConfig w.setenvOk c.dockerUsername c.dockerPassword c.accessKey
        c.secretKey c.registry c.noPush).1 = Except.ok cfg)
    (hw : w.writeFileOk dockerConfigPath = true)
    (hcr : (runCreateRepoStage w c).1 = Except.ok ())
    (hlp : (runLifecycleStage w c).1 = Except.ok ())
    (hrp : (runRepoPolicyStage w c).1 = Except.ok ()) :
    run w c = ((if w.execOk then Except.ok () else Except.error PluginError.delegateError),
      (createDockerConfig w.setenvOk c.dockerUsername c.dockerPassword c.accessKey
        c.secretKey c.registry c.noPush).2 ++
      [Effect.writeFile dockerConfigPath (encodeConfig cfg)] ++
      (runCreateRepoStage w c).2 ++ (runLifecycleStage w c).2 ++
      (runRepoPolicyStage w c).2 ++ [Effect.execBuild]) := by
  unfold run
  dsimp only
  rw [hdc]
  dsimp only
  rw [if_neg (by rw [hw]; simp : ¬ (w.writeFileOk dockerConfigPath = false)), hcr, hlp, hrp]

/-- Either the run never delegates to the build executor, or all bootstrap
steps succeeded and it delegates exactly once. -/
theorem run_delegation_shape (w : World) (c : CliContext) :
    (Effect.execBuild ∉ (run w c).2 ∧ countExec (run w c).2 = 0) ∨
    ((∃ cfg, (createDockerConfig w.setenvOk c.dockerUsername c.dockerPassword c.accessKey
        c.secretKey c.registry c.noPush).1 = Except.ok cfg) ∧
      w.writeFileOk dockerConfigPath = true ∧
      (runCreateRepoStage w c).1 = Except.ok () ∧
      (runLifecycleStage w c).1 = Except.ok () ∧
      (runRepoPolicyStage w c).1 = Except.ok () ∧
      countExec (run w c).2 = 1) := by
  rcases hdc : (createDockerConfig w.setenvOk c.dockerUsername c.dockerPassword c.accessKey
      c.secretKey c.registry c.noPush).1 with err | cfg
  · have h2 : (run w c).2 = (createDockerConfig w.setenvOk c.dockerUsername
        c.dockerPassword c.accessKey c.secretKey c.registry c.noPush).2 := by
      rw [run_eq_of_dc_error w c err hdc]
    rw [h2]
    exact Or.inl ⟨execBuild_not_mem_createDockerConfig _ _ _ _ _ _ _,
      countExec_eq_zero _ (execBuild_not_mem_createDockerConfig _ _ _ _ _ _ _)⟩
  · rcases hwv : w.writeFileOk dockerConfigPath with _ | _
    · have h2 : (run w c).2 = (createDockerConfig w.setenvOk c.dockerUsername
          c.dockerPassword c.accessKey c.secretKey c.registry c.noPush).2 := by
        rw [run_eq_of_write_fail w c cfg hdc hwv]
      rw [h2]
      exact Or.inl ⟨execBuild_not_mem_createDockerConfig _ _ _ _ _ _ _,
        countExec_eq_zero _ (execBuild_not_mem_createDockerConfig _ _ _ _ _ _ _)⟩
    · rcases hcr : (runCreateRepoStage w c).1 with err | u
      · have h2 : (run w c).2 = (createDockerConfig w.setenvOk c.dockerUsername
            c.dockerPassword c.accessKey c.secretKey c.registry c.noPush).2 ++
            [Effect.writeFile dockerConfigPath (encodeConfig cfg)] ++
            (runCreateRepoStage w c).2 := by
          rw [run_eq_of_cr_error w c cfg err hdc hwv hcr]
        have hnm : Effect.execBuild ∉ (run w c).2 := by
          rw [h2]
          intro h
          simp only [List.mem_append, List.mem_singleton] at h
          rcases h with (h | h) | h
          · exact execBuild_not_mem_createDockerConfig _ _ _ _ _ _ _ h
          · exact Effect.noConfusion h
          · exact execBuild_not_mem_createRepoStage w c h
        exact Or.inl ⟨hnm, countExec_eq_zero _ hnm⟩
      · cases u
        rcases hlp : (runLifecycleStage w c).1 with err | u
        · have h2 : (run w c).2 = (createDockerConfig w.setenvOk c.dockerUsername
              c.dockerPassword c.accessKey c.secretKey c.registry c.noPush).2 ++
              [Effect.writeFile dockerConfigPath (encodeConfig cfg)] ++
              (runCreateRepoStage w c).2 ++ (runLifecycleStage w c).2 := by
            rw [run_eq_of_lp_error w c cfg err hdc hwv hcr hlp]
          have hnm : Effect.execBuild ∉ (run w c).2 := by
            rw [h2]
            intro h
            simp only [List.mem_append, List.mem_singleton] at h
            rcases h with ((h | h) | h) | h
            · exact execBuild_not_mem_createDockerConfig _ _ _ _ _ _ _ h
            · exact Effect.noConfusion h
            · exact execBuild_not_mem_createRepoStage w c h
            · exact execBuild_not_mem_lifecycleStage w c h
          exact Or.inl ⟨hnm, countExec_eq_zero _ hnm⟩
        · cases u
          rcases hrp : (runRepoPolicyStage w c).1 with err | u
          · have h2 : (run w c).2 = (createDockerConfig w.setenvOk c.dockerUsername
                c.dockerPassword c.accessKey c.secretKey c.registry c.noPush).2 ++
                [Effect.writeFile dockerConfigPath (encodeConfig cfg)] ++
                (runCreateRepoStage w c).2 ++ (runLifecycleStage w c).2 ++
                (runRepoPolicyStage w c).2 := by
              rw [run_eq_of_rp_error w c cfg err hdc hwv hcr hlp hrp]
            have hnm : Effect.execBuild ∉ (run w c).2 := by
              rw [h2]
              intro h
              simp only [List.mem_append, List.mem_singleton] at h
              rcases h with (((h | h) | h) | h) | h
              · exact execBuild_not_mem_createDockerConfig _ _ _ _ _ _ _ h
              · exact Effect.noConfusion h
              · exact execBuild_not_mem_createRepoStage w c h
              · exact execBuild_not_mem_lifecycleStage w c h
              · exact execBuild_not_mem_repoPolicyStage w c h
            exact Or.inl ⟨hnm, countExec_eq_zero _ hnm⟩
          · cases u
            have h2 : (run w c).2 = (createDockerConfig w.setenvOk c.dockerUsername
                c.dockerPassword c.accessKey c.secretKey c.registry c.noPush).2 ++
                [Effect.writeFile dockerConfigPath (encodeConfig cfg)] ++
                (runCreateRepoStage w c).2 ++ (runLifecycleStage w c).2 ++
                (runRepoPolicyStage w c).2 ++ [Effect.execBuild] := by
              rw [run_eq_of_all_ok w c cfg hdc hwv hcr hlp hrp]
            refine Or.inr ⟨⟨cfg, rfl⟩, rfl, rfl, rfl, rfl, ?_⟩
            rw [h2]
            rw [countExec_append, countExec_append, countExec_append, countExec_append,
              countExec_append]
            rw [countExec_eq_zero _ (execBuild_not_mem_createDockerConfig _ _ _ _ _ _ _),
              countExec_eq_zero _ (execBuild_not_mem_createRepoStage w c),
              countExec_eq_zero _ (execBuild_not_mem_lifecycleStage w c),
              countExec_eq_zero _ (execBuild_not_mem_repoPolicyStage w c)]
            rfl

/-! ## Concrete worlds and contexts for witnesses and counterexamples -/

/-- A world where every external operation succeeds. -/
def okWorld : World :=
  ⟨fun _ _ => true, fun _ => true, fun _ => none, fun _ _ _ => none,
   fun _ _ _ => none, fun _ _ _ _ => none, fun _ => some "policy-doc", true⟩

/-- A no-push, no-access-key invocation with a username supplied and no
repository creation or policy uploads requested. -/
def noPushCtx : CliContext :=
  ⟨"app", "123.dkr.ecr.us-east-1.amazonaws.com", "us-east-1", true, "user", "pass",
   "", "", false, false, "", false, ""⟩

/-- C3 (counterexample): with push suppressed (`noPush = true`) and no access
key supplied, the run still mutates the credential-document file at the fixed
path, contradicting that auth setup skips all file mutation. -/
theorem run_nopush_writes_config_file :
    noPushCtx.noPush = true ∧ noPushCtx.accessKey = "" ∧
    ((run okWorld noPushCtx).2.any writesDockerConfigFile) = true :=
  ⟨rfl, rfl, by decide⟩

/-- C3 (amended): when push is suppressed and no access key is supplied, no
credential environment variable is exported anywhere in the run and the
synthesized auth config has no credential-helper registry bindings; however
the credential document is still serialized and written to the fixed path. -/
theorem run_nopush_skips_auth (w : World) (c : CliContext)
    (hpush : c.noPush = true) (hkey : c.accessKey = "")
    (hw : w.writeFileOk dockerConfigPath = true) :
    noSetEnv (run w c).2 = true ∧
    (∀ cfg, (createDockerConfig w.setenvOk c.dockerUsername c.dockerPassword c.accessKey
        c.secretKey c.registry c.noPush).1 = Except.ok cfg → cfg.credHelpers = []) ∧
    Effect.writeFile dockerConfigPath (encodeConfig (if c.dockerUsername ≠ "" then
        DockerConfig.new.setAuth RegistryV1 c.dockerUsername c.dockerPassword
        else DockerConfig.new)) ∈ (run w c).2 := by
  have hcond : (!c.noPush || c.accessKey ≠ "") = false := by
    rw [hpush, hkey]
    simp
  have hdc := createDockerConfig_no_auth w.setenvOk c.dockerUsername c.dockerPassword
    c.accessKey c.secretKey c.registry c.noPush hcond
  refine ⟨?_, ?_, ?_⟩
  · simp only [noSetEnv, List.all_eq_true]
    intro e he
    rcases run_effects_cases w c e he with h | ⟨s, rfl⟩ | h | rfl
    · rw [hdc] at h
      simp at h
    · rfl
    · cases e with
      | setEnv k v => exact Bool.noConfusion h
      | writeFile p s => rfl
      | apiCall a => rfl
      | execBuild => rfl
    · rfl
  · intro cfg hok
    rw [hdc] at hok
    simp only [Except.ok.injEq] at hok
    rw [← hok]
    exact noAuthConfig_credHelpers _ _
  · rcases run_writes_file w c _ _ hdc hw with ⟨tail, htail⟩
    rw [htail]
    simp

/-- C3 witness: the amended claim at the concrete no-push input. -/
theorem run_nopush_skips_auth_witness :
    noSetEnv (run okWorld noPushCtx).2 = true ∧
    Effect.writeFile dockerConfigPath (encodeConfig (if noPushCtx.dockerUsername ≠ "" then
        DockerConfig.new.setAuth RegistryV1 noPushCtx.dockerUsername noPushCtx.dockerPassword
        else DockerConfig.new)) ∈ (run okWorld noPushCtx).2 :=
  ⟨(run_nopush_skips_auth okWorld noPushCtx rfl rfl rfl).1,
   (run_nopush_skips_auth okWorld noPushCtx rfl rfl rfl).2.2⟩

/-- C8: the orchestrator delegates to the external build executor at most
once, and only when credential synthesis, the config write, the gated
repository-ensure step and the gated policy uploads all succeeded; any
bootstrap failure means the executor is never invoked. -/
theorem run_delegates_once (w : World) (c : CliContext) :
    countExec (run w c).2 ≤ 1 ∧
    (Effect.execBuild ∈ (run w c).2 →
      (∃ cfg, (createDockerConfig w.setenvOk c.dockerUsername c.dockerPassword c.accessKey
          c.secretKey c.registry c.noPush).1 = Except.ok cfg) ∧
      w.writeFileOk dockerConfigPath = true ∧
      (runCreateRepoStage w c).1 = Except.ok () ∧
      (runLifecycleStage w c).1 = Except.ok () ∧
      (runRepoPolicyStage w c).1 = Except.ok ()) := by
  rcases run_delegation_shape w c with ⟨hnm, hz⟩ | ⟨hdc, hw, hcr, hlp, hrp, h1⟩
  · refine ⟨?_, fun hmem => absurd hmem hnm⟩
    rw [hz]
    exact Nat.zero_le 1
  · refine ⟨?_, fun _ => ⟨hdc, hw, hcr, hlp, hrp⟩⟩
    rw [h1]

/-- C8 witness: at a fully-successful concrete input the executor runs and
all bootstrap steps succeeded. -/
theorem run_delegates_once_witness :
    countExec (run okWorld noPushCtx).2 ≤ 1 ∧
    ((∃ cfg, (createDockerConfig okWorld.setenvOk noPushCtx.dockerUsername
        noPushCtx.dockerPassword noPushCtx.accessKey noPushCtx.secretKey noPushCtx.registry
        noPushCtx.noPush).1 = Except.ok cfg) ∧
      okWorld.writeFileOk dockerConfigPath = true ∧
      (runCreateRepoStage okWorld noPushCtx).1 = Except.ok () ∧
      (runLifecycleStage okWorld noPushCtx).1 = Except.ok () ∧
      (runRepoPolicyStage okWorld noPushCtx).1 = Except.ok ()) :=
  ⟨(run_delegates_once okWorld noPushCtx).1,
   (run_delegates_once okWorld noPushCtx).2 (by decide)⟩

/-- C10: in the GCR variant, auth setup is performed iff the JSON key is
non-empty — when empty, no file is written and no environment variable is set
— and the behaviour is independent of the push-suppression flag. -/
theorem gcrRun_auth_gate (writeOk : String → Bool) (setenvOk : String → String → Bool)
    (execOk np np' : Bool) (jsonKey : String) :
    (jsonKey = "" → (Gcr.run writeOk setenvOk execOk ⟨np, jsonKey⟩).2 =
      [Effect.execBuild]) ∧
    (¬ jsonKey = "" → writeOk gcrKeyPath = true → setenvOk gcrEnvVariable gcrKeyPath = true →
      (Gcr.run writeOk setenvOk execOk ⟨np, jsonKey⟩).2 =
        [Effect.writeFile gcrKeyPath jsonKey, Effect.setEnv gcrEnvVariable gcrKeyPath,
         Effect.execBuild]) ∧
    (Gcr.run writeOk setenvOk execOk ⟨np, jsonKey⟩).2 =
      (Gcr.run writeOk setenvOk execOk ⟨np', jsonKey⟩).2 := by
  refine ⟨?_, ?_, rfl⟩
  · intro h
    simp [Gcr.run, h]
  · intro h hw hs
    unfold Gcr.run
    dsimp only
    rw [if_pos (by simpa using h)]
    unfold setupGCRAuth
    rw [if_neg (by rw [hw]; simp : ¬ (writeOk gcrKeyPath = false)),
      if_neg (by rw [hs]; simp : ¬ (setenvOk gcrEnvVariable gcrKeyPath = false))]
    rfl

/-- C10 witness: both gate directions at concrete inputs. -/
theorem gcrRun_auth_gate_witness :
    ((Gcr.run (fun _ => true) (fun _ _ => true) true ⟨true, ""⟩).2 =
      [Effect.execBuild]) ∧
    ((Gcr.run (fun _ => true) (fun _ _ => true) true ⟨true, "jkey"⟩).2 =
      [Effect.writeFile gcrKeyPath "jkey", Effect.setEnv gcrEnvVariable gcrKeyPath,
       Effect.execBuild]) :=
  ⟨(gcrRun_auth_gate (fun _ => true) (fun _ _ => true) true true true "").1 rfl,
   (gcrRun_auth_gate (fun _ => true) (fun _ _ => true) true true true "jkey").2.1
     (by decide) rfl rfl⟩

end DroneKaniko
